import Mathlib

/-!
Verification development for the crosswalk cookie-change dispatcher wrapper
(runtime/browser/android/net/xwalk_cookie_change_dispatcher_wrapper.cc) and the
Android AV-codecs provider stub (sysapps/device_capabilities/av_codecs_provider_android.cc).

The dispatcher wrapper is a cross-thread notification relay.  We embed it as an
explicit state machine over two execution contexts (the client context and the
cookie-store context), each with a FIFO task queue.  One system state describes
one subscription: the SubscriptionWrapper (hub) living on the client context,
the NestedSubscription (relay) pinned to the store context via
base::RefCountedDeleteOnSequence, the registration inside the real store, and
the XWalkCookieChangeSubscription handle held by the caller.
-/

namespace Xwalk

/-- Execution contexts: the consumer (client) thread and the thread the global
CookieStore lives on. -/
inductive Ctx where
  | client
  | store
deriving DecidableEq

/-- net::CookieChangeCause, the cause enumeration delivered with each change
event (external to the relay; carried through opaquely). -/
inductive CookieChangeCause where
  | inserted
  | explicitDeletion
  | unknownDeletion
  | overwrite
  | expired
  | evicted
  | expiredOverwrite
deriving DecidableEq

/-- net::CanonicalCookie as it crosses the relay: an opaque immutable record.
The relay never reads or modifies its fields; it only forwards the value. -/
structure CanonicalCookie where
  name : String
  value : String
  domain : String
  path : String
deriving DecidableEq

/-- GURL, opaque to the relay. -/
abbrev GURL := String

/-- SubscriptionWrapper::Mode (source lines 53-56). -/
inductive Mode where
  | kByCookie
  | kByUrl
deriving DecidableEq

/-- The registration held inside the real CookieStore change dispatcher after
NestedSubscription::Subscribe has run: key-scoped (AddCallbackForCookie with a
url and a cookie name) or URL-scoped (AddCallbackForUrl with a url only). -/
inductive RealSubscription where
  | byCookie (url : GURL) (name : String)
  | byUrl (url : GURL)
deriving DecidableEq

/-- The switch inside NestedSubscription::Subscribe (source lines 93-103):
kByCookie registers with GetChangeDispatcher().AddCallbackForCookie(url, name, ...);
kByUrl registers with GetChangeDispatcher().AddCallbackForUrl(url, ...), the
name argument being unused on that path. -/
def NestedSubscription.subscribeRegistration : Mode → GURL → String → RealSubscription
  | Mode.kByCookie, url, name => RealSubscription.byCookie url name
  | Mode.kByUrl, url, _ => RealSubscription.byUrl url

/-- Tasks posted to the two task runners.  nestedSubscribe is the closure
posted by NestedSubscription::Create; wrapperOnChanged is the closure posted by
NestedSubscription::OnChanged (bound through the weak hub pointer);
deleteRelay is the deferred destruction task base::RefCountedDeleteOnSequence
posts when the last reference is released off the owning sequence. -/
inductive Task where
  | nestedSubscribe (mode : Mode) (url : GURL) (name : String)
  | wrapperOnChanged (cookie : CanonicalCookie) (cause : CookieChangeCause)
  | deleteRelay
deriving DecidableEq

/-- State of one subscription: hub, relay, real store registration, the two
task queues, the log of invocations of the caller-supplied callback, and the
caller-held handle. -/
structure SystemState where
  /-- The SubscriptionWrapper object is live (not yet deleted). -/
  hubAlive : Bool
  /-- Registrations currently inside the hub callback_list_ (each entry is the
  id of a caller-supplied callback). -/
  callbackList : List Nat
  /-- Whether set_removal_callback was ever called on callback_list_.  The
  source never calls it, so in every reachable state this stays false. -/
  removalCallback : Bool
  /-- The hub member nested_subscription_ holds a strong reference. -/
  hubHoldsRelayRef : Bool
  /-- Strong reference count of the NestedSubscription. -/
  relayRefcount : Nat
  /-- The NestedSubscription destructor has run. -/
  relayDestroyed : Bool
  /-- The relay member subscription_: the real registration inside the store
  change dispatcher, present between the Subscribe step and relay destruction. -/
  storeSubscription : Option RealSubscription
  /-- FIFO queue of the cookie-store task runner. -/
  storeQueue : List Task
  /-- FIFO queue of the client task runner. -/
  clientQueue : List Task
  /-- Invocations of the caller-supplied callback, in order, with payloads. -/
  clientLog : List (CanonicalCookie × CookieChangeCause)
  /-- The XWalkCookieChangeSubscription handle is live. -/
  handleAlive : Bool
deriving DecidableEq

/-- XWalkCookieChangeSubscription (source lines 30-40): owns the
CallbackList::Subscription for one registration and nothing else. -/
structure XWalkCookieChangeSubscription where
  subscriptionId : Nat
deriving DecidableEq

/-- new SubscriptionWrapper() (source lines 49-51): the constructor only seeds
weak_factory_; callback_list_ is empty and no removal callback is installed. -/
def SubscriptionWrapper.fresh : SystemState :=
  { hubAlive := true
    callbackList := []
    removalCallback := false
    hubHoldsRelayRef := false
    relayRefcount := 0
    relayDestroyed := false
    storeSubscription := none
    storeQueue := []
    clientQueue := []
    clientLog := []
    handleAlive := false }

/-- Release of one strong reference to the NestedSubscription.
base::RefCountedDeleteOnSequence semantics: when the last reference is
released on the owning (cookie-store) sequence the destructor runs in place;
when it is released on any other sequence, a destruction task is posted to the
owning sequence instead, so the destructor itself still runs there. -/
def NestedSubscription.release (ctx : Ctx) (s : SystemState) : SystemState :=
  if s.relayRefcount ≤ 1 then
    match ctx with
    | Ctx.store => { s with relayRefcount := 0, relayDestroyed := true, storeSubscription := none }
    | Ctx.client => { s with relayRefcount := 0, storeQueue := s.storeQueue ++ [Task.deleteRelay] }
  else { s with relayRefcount := s.relayRefcount - 1 }

/-- delete of the SubscriptionWrapper: invalidates the weak pointers minted by
weak_factory_ and releases the nested_subscription_ strong reference. -/
def SubscriptionWrapper.delete (ctx : Ctx) (s : SystemState) : SystemState :=
  let s1 := { s with hubAlive := false, hubHoldsRelayRef := false }
  if s.hubHoldsRelayRef then NestedSubscription.release ctx s1 else s1

/-- SubscriptionWrapper::OnUnsubscribe (source line 124): delete this.  It runs
on the client context.  In the source nothing ever invokes it, because
set_removal_callback is never called on callback_list_. -/
def SubscriptionWrapper.OnUnsubscribe (s : SystemState) : SystemState :=
  SubscriptionWrapper.delete Ctx.client s

/-- Destruction of the XWalkCookieChangeSubscription handle (client context):
the destructor destroys the owned CallbackList::Subscription, which removes
that registration from the hub callback_list_; base::CallbackList then runs
its removal callback, but only if one was installed with set_removal_callback
(the source never installs one, so the second branch is dead in every
reachable state). -/
def XWalkCookieChangeSubscription.drop (h : XWalkCookieChangeSubscription)
    (s : SystemState) : SystemState :=
  let s1 := { s with handleAlive := false
                     callbackList := s.callbackList.filter (fun i => i != h.subscriptionId) }
  if s.removalCallback && s1.callbackList.isEmpty then SubscriptionWrapper.OnUnsubscribe s1 else s1

/-- NestedSubscription::Create (source lines 73-78): WrapRefCounted around the
new relay yields one strong reference (stored by the caller into
nested_subscription_), and the BindOnce closure posted to the cookie-store task
runner holds a second strong reference until the Subscribe task has run. -/
def NestedSubscription.Create (s : SystemState) (mode : Mode) (url : GURL) (name : String) :
    SystemState :=
  { s with relayRefcount := 2
           relayDestroyed := false
           storeQueue := s.storeQueue ++ [Task.nestedSubscribe mode url name] }

/-- SubscriptionWrapper::Subscribe (source lines 58-65).  The
DCHECK(callback_list_.empty()) on entry is embedded as a hard assertion: when
the registry is nonempty the call is rejected (none) and no successor state or
handle is produced.  Otherwise nested_subscription_ is set by
NestedSubscription::Create, the callback is appended to callback_list_, and
the returned XWalkCookieChangeSubscription wraps that registration. -/
def SubscriptionWrapper.Subscribe (s : SystemState) (mode : Mode) (url : GURL) (name : String)
    (callback : Nat) : Option (SystemState × XWalkCookieChangeSubscription) :=
  if s.callbackList.isEmpty then
    let s1 := NestedSubscription.Create s mode url name
    some ({ s1 with hubHoldsRelayRef := true
                    callbackList := s1.callbackList ++ [callback]
                    handleAlive := true },
          { subscriptionId := callback })
  else none

/-- XWalkCookieChangeDispatcherWrapper::AddCallbackForCookie (source lines
140-151): new SubscriptionWrapper(), then Subscribe in kByCookie mode. -/
def XWalkCookieChangeDispatcherWrapper.AddCallbackForCookie (url : GURL) (name : String)
    (callback : Nat) : Option (SystemState × XWalkCookieChangeSubscription) :=
  SubscriptionWrapper.Subscribe SubscriptionWrapper.fresh Mode.kByCookie url name callback

/-- XWalkCookieChangeDispatcherWrapper::AddCallbackForUrl (source lines
153-160): new SubscriptionWrapper(), then Subscribe in kByUrl mode with the
name argument passed as the empty string (ignored). -/
def XWalkCookieChangeDispatcherWrapper.AddCallbackForUrl (url : GURL)
    (callback : Nat) : Option (SystemState × XWalkCookieChangeSubscription) :=
  SubscriptionWrapper.Subscribe SubscriptionWrapper.fresh Mode.kByUrl url "" callback

/-- Outcome of the unsupported entry point: whether NOTIMPLEMENTED was logged,
and the returned handle pointer (none embeds nullptr). -/
structure UnsupportedOutcome where
  notImplementedLogged : Bool
  handle : Option XWalkCookieChangeSubscription
deriving DecidableEq

/-- XWalkCookieChangeDispatcherWrapper::AddCallbackForAllChanges (source lines
162-167): NOTIMPLEMENTED(); return nullptr. -/
def XWalkCookieChangeDispatcherWrapper.AddCallbackForAllChanges (_callback : Nat) :
    UnsupportedOutcome :=
  { notImplementedLogged := true, handle := none }

/-- NestedSubscription::OnChanged (source lines 105-109), invoked by the store
on the store context: posts to the client task runner a closure binding
SubscriptionWrapper::OnChanged through the weak hub pointer together with the
unmodified (cookie, cause) payload. -/
def NestedSubscription.OnChanged (s : SystemState) (cookie : CanonicalCookie)
    (cause : CookieChangeCause) : SystemState :=
  { s with clientQueue := s.clientQueue ++ [Task.wrapperOnChanged cookie cause] }

/-- The external cookie store delivering a change event to this subscription:
it invokes the registered OnChanged callback on the store context, which only
exists while the real registration (the relay member subscription_) does. -/
def storeEmit (s : SystemState) (cookie : CanonicalCookie) (cause : CookieChangeCause) :
    SystemState :=
  if s.storeSubscription.isSome then NestedSubscription.OnChanged s cookie cause else s

/-- SubscriptionWrapper::OnChanged (source lines 119-122):
callback_list_.Notify(cookie, cause) invokes every registered callback, in
registration order, with the unmodified payload. -/
def SubscriptionWrapper.OnChanged (s : SystemState) (cookie : CanonicalCookie)
    (cause : CookieChangeCause) : SystemState :=
  { s with clientLog := s.clientLog ++ s.callbackList.map (fun _ => (cookie, cause)) }

/-- The cookie-store task runner executing the head of its FIFO queue.
Running the nestedSubscribe closure performs NestedSubscription::Subscribe:
the real registration is installed (the BindRepeating callback it hands the
store takes one strong relay reference, and the strong reference bound into
the finished closure is released, leaving the count unchanged).  Running
deleteRelay executes the deferred relay destructor, which also destroys the
owned real registration. -/
def runStoreTask (s : SystemState) : SystemState :=
  match s.storeQueue with
  | [] => s
  | t :: rest =>
    let s1 := { s with storeQueue := rest }
    match t with
    | Task.nestedSubscribe mode url name =>
        { s1 with storeSubscription := some (NestedSubscription.subscribeRegistration mode url name) }
    | Task.deleteRelay =>
        { s1 with relayDestroyed := true, storeSubscription := none }
    | Task.wrapperOnChanged _ _ => s1

/-- The client task runner executing the head of its FIFO queue.  The
wrapperOnChanged closure was bound through a base::WeakPtr to the hub: when
the hub has been deleted the weak pointer is invalid and running the closure
does nothing at all; otherwise it runs SubscriptionWrapper::OnChanged. -/
def runClientTask (s : SystemState) : SystemState :=
  match s.clientQueue with
  | [] => s
  | t :: rest =>
    let s1 := { s with clientQueue := rest }
    match t with
    | Task.wrapperOnChanged cookie cause =>
        if s.hubAlive then SubscriptionWrapper.OnChanged s1 cookie cause else s1
    | Task.nestedSubscribe _ _ _ => s1
    | Task.deleteRelay => s1

/-- Scheduler actions: run the head task of one queue, let the store deliver a
change event, destroy the caller-held handle, or release one strong relay
reference from a given context. -/
inductive Action where
  | runStoreTask
  | runClientTask
  | storeEmit (cookie : CanonicalCookie) (cause : CookieChangeCause)
  | dropHandle (h : XWalkCookieChangeSubscription)
  | releaseRelayRef (ctx : Ctx)
deriving DecidableEq

/-- The context on which each action executes. -/
def Action.ctx : Action → Ctx
  | Action.runStoreTask => Ctx.store
  | Action.runClientTask => Ctx.client
  | Action.storeEmit _ _ => Ctx.store
  | Action.dropHandle _ => Ctx.client
  | Action.releaseRelayRef c => c

/-- One scheduler step. -/
def step (s : SystemState) : Action → SystemState
  | Action.runStoreTask => runStoreTask s
  | Action.runClientTask => runClientTask s
  | Action.storeEmit cookie cause => storeEmit s cookie cause
  | Action.dropHandle h => XWalkCookieChangeSubscription.drop h s
  | Action.releaseRelayRef ctx => NestedSubscription.release ctx s

/-- Running a whole schedule of actions. -/
def run (s : SystemState) : List Action → SystemState
  | [] => s
  | a :: as => run (step s a) as

/-- Concrete url used by the evaluation states below. -/
def exUrl : GURL := "https://example.com"

/-- Concrete cookie used by the evaluation states below. -/
def exCookie : CanonicalCookie :=
  { name := "session_id", value := "abc", domain := "example.com", path := "/" }

/-- The state right after AddCallbackForCookie(exUrl, "session_id", callback 7). -/
def postSubscribeState : SystemState :=
  (XWalkCookieChangeDispatcherWrapper.AddCallbackForCookie exUrl "session_id" 7).elim
    SubscriptionWrapper.fresh Prod.fst

/-- The handle returned by that same AddCallbackForCookie call. -/
def postSubscribeHandle : XWalkCookieChangeSubscription :=
  (XWalkCookieChangeDispatcherWrapper.AddCallbackForCookie exUrl "session_id" 7).elim
    { subscriptionId := 7 } Prod.snd

/-- The state after the posted Subscribe task has run on the store context:
the subscription is active. -/
def activeState : SystemState := runStoreTask postSubscribeState

/-- A state in which the hub has been deleted while a change notification is
still queued on the client context. -/
def staleState : SystemState :=
  { SubscriptionWrapper.fresh with
      hubAlive := false
      clientQueue := [Task.wrapperOnChanged exCookie CookieChangeCause.overwrite] }

/-- Modelled from the spec: SystemAVCodecs, the codec-capability record whose
declaration lives outside the reviewed sources (xwalk/sysapps
device_capabilities IDL types); per the spec the Android provider is a stub,
and default construction of the record yields empty codec lists. -/
structure SystemAVCodecs where
  audio_codecs : List String
  video_codecs : List String
deriving DecidableEq

/-- Default-constructed SystemAVCodecs: empty codec lists. -/
def SystemAVCodecs.fresh : SystemAVCodecs :=
  { audio_codecs := [], video_codecs := [] }

/-- Outcome of the provider call: whether NOTIMPLEMENTED was logged and the
returned owning pointer (none embeds a null pointer). -/
structure AVCodecsOutcome where
  notImplementedLogged : Bool
  codecs : Option SystemAVCodecs
deriving DecidableEq

/-- AVCodecsProviderAndroid::GetSupportedCodecs (source lines 14-17):
NOTIMPLEMENTED(); return make_scoped_ptr(new SystemAVCodecs). -/
def AVCodecsProviderAndroid.GetSupportedCodecs : AVCodecsOutcome :=
  { notImplementedLogged := true, codecs := some SystemAVCodecs.fresh }

/-- C4: every call to AddCallbackForAllChanges signals the NotImplemented
condition and returns a null handle, never a functioning subscription. -/
theorem addCallbackForAllChanges_unsupported (callback : Nat) :
    (XWalkCookieChangeDispatcherWrapper.AddCallbackForAllChanges callback).notImplementedLogged
        = true ∧
    (XWalkCookieChangeDispatcherWrapper.AddCallbackForAllChanges callback).handle = none :=
  ⟨rfl, rfl⟩

/-- C5: for every (url, name, callback) input, AddCallbackForCookie and
AddCallbackForUrl succeed synchronously, each returning a (non-null)
subscription handle together with the successor state; neither has an
observable failure outcome (the assertion guard passes on the fresh hub both
entry points construct). -/
theorem addCallback_always_returns_handle (url : GURL) (name : String) (callback : Nat) :
    (∃ p, XWalkCookieChangeDispatcherWrapper.AddCallbackForCookie url name callback = some p) ∧
    (∃ q, XWalkCookieChangeDispatcherWrapper.AddCallbackForUrl url callback = some q) :=
  ⟨⟨_, rfl⟩, ⟨_, rfl⟩⟩

/-- C6: the Subscribe step of the relay is a two-way switch on the mode:
kByCookie yields the key-scoped store registration built from the url and the
name, kByUrl yields the URL-scoped registration, and on the kByUrl path the
name argument has no effect on the resulting registration. -/
theorem subscribe_mode_switch (url : GURL) (name n1 n2 : String) :
    NestedSubscription.subscribeRegistration Mode.kByCookie url name
        = RealSubscription.byCookie url name ∧
    NestedSubscription.subscribeRegistration Mode.kByUrl url name
        = RealSubscription.byUrl url ∧
    NestedSubscription.subscribeRegistration Mode.kByUrl url n1
        = NestedSubscription.subscribeRegistration Mode.kByUrl url n2 :=
  ⟨rfl, rfl, rfl⟩

/-- C8: calling Subscribe a second time on the same SubscriptionWrapper hits
the DCHECK that the callback registry is empty; the call is rejected and no
successor state is produced, so the state of the first subscription is never
silently replaced. -/
theorem second_subscribe_rejected (s : SystemState) (mode : Mode) (url : GURL)
    (name : String) (callback : Nat) (h : s.callbackList ≠ []) :
    SubscriptionWrapper.Subscribe s mode url name callback = none := by
  unfold SubscriptionWrapper.Subscribe
  cases hcl : s.callbackList with
  | nil => exact absurd hcl h
  | cons x xs => simp [hcl]

/-- Witness for C8: the state reached by AddCallbackForCookie has a nonempty
registry, and a second Subscribe on it is rejected. -/
theorem second_subscribe_rejected_witness :
    SubscriptionWrapper.Subscribe postSubscribeState Mode.kByCookie exUrl "session_id" 8 = none :=
  second_subscribe_rejected postSubscribeState Mode.kByCookie exUrl "session_id" 8 (by decide)

/-- C10: GetSupportedCodecs on the Android provider always returns a non-null
pointer to a freshly constructed, empty SystemAVCodecs (never null, never an
error value), while logging the NOTIMPLEMENTED condition. -/
theorem getSupportedCodecs_fresh_empty :
    AVCodecsProviderAndroid.GetSupportedCodecs.codecs
        = some { audio_codecs := [], video_codecs := [] } ∧
    AVCodecsProviderAndroid.GetSupportedCodecs.notImplementedLogged = true :=
  ⟨rfl, rfl⟩

/-- C7: a wrapperOnChanged task executing on the client context after the hub
has been destroyed is a no-op: the message is popped from the queue and
silently discarded, nothing else in the state changes (no error is raised, no
log entry appears, and the dead hub is neither resurrected nor kept alive —
the closure only held a weak reference to it). -/
theorem stale_notification_noop (s : SystemState) (cookie : CanonicalCookie)
    (cause : CookieChangeCause) (rest : List Task) (hdead : s.hubAlive = false)
    (hq : s.clientQueue = Task.wrapperOnChanged cookie cause :: rest) :
    runClientTask s = { s with clientQueue := rest } := by
  unfold runClientTask
  rw [hq]
  simp [hdead]

/-- Witness for C7 at a concrete state: hub destroyed, one stale notification
queued; running the client task only pops the queue. -/
theorem stale_notification_noop_witness :
    runClientTask staleState = { staleState with clientQueue := [] } :=
  stale_notification_noop staleState exCookie CookieChangeCause.overwrite []
    (by decide) (by decide)

/-- C3: while a subscription is active (real store registration present, hub
alive, exactly one registered callback, no notification in flight), a
store-side change event produces exactly one client-side callback invocation,
carrying the identical (cookie, cause) payload unmodified, and it happens on
the client context (the runClientTask action). -/
theorem active_subscription_delivers_exactly_once (s : SystemState)
    (cookie : CanonicalCookie) (cause : CookieChangeCause) (callback : Nat)
    (hsub : s.storeSubscription.isSome = true) (hhub : s.hubAlive = true)
    (hcb : s.callbackList = [callback]) (hq : s.clientQueue = []) :
    (runClientTask (storeEmit s cookie cause)).clientLog
        = s.clientLog ++ [(cookie, cause)] ∧
    (runClientTask (storeEmit s cookie cause)).clientQueue = [] ∧
    Action.ctx Action.runClientTask = Ctx.client := by
  refine ⟨?_, ?_, rfl⟩ <;>
    simp [storeEmit, hsub, NestedSubscription.OnChanged, runClientTask, hq, hhub, hcb,
      SubscriptionWrapper.OnChanged]

/-- Witness for C3 at the concrete active subscription state. -/
theorem active_subscription_delivers_exactly_once_witness :
    (runClientTask (storeEmit activeState exCookie CookieChangeCause.overwrite)).clientLog
        = activeState.clientLog ++ [(exCookie, CookieChangeCause.overwrite)] ∧
    (runClientTask (storeEmit activeState exCookie CookieChangeCause.overwrite)).clientQueue
        = [] ∧
    Action.ctx Action.runClientTask = Ctx.client :=
  active_subscription_delivers_exactly_once activeState exCookie CookieChangeCause.overwrite 7
    (by decide) (by decide) (by decide) (by decide)

/-- C9: no step executed on the client context ever creates or destroys the
real store-side registration, nor runs the relay destructor — both exist only
on the store context.  In particular, releasing the last strong relay
reference from the client context (the releaseRelayRef client action) does not
run the destructor there: RefCountedDeleteOnSequence defers it to a task on
the store queue. -/
theorem runClientTask_preserves_relay (s : SystemState) :
    (runClientTask s).storeSubscription = s.storeSubscription ∧
    (runClientTask s).relayDestroyed = s.relayDestroyed := by
  unfold runClientTask
  cases hq : s.clientQueue with
  | nil => exact ⟨rfl, rfl⟩
  | cons t rest =>
    cases t with
    | wrapperOnChanged cookie cause =>
      by_cases hha : s.hubAlive = true <;> simp [hha, SubscriptionWrapper.OnChanged]
    | nestedSubscribe mode url name => exact ⟨rfl, rfl⟩
    | deleteRelay => exact ⟨rfl, rfl⟩

theorem drop_preserves_relay (hd : XWalkCookieChangeSubscription) (s : SystemState) :
    (XWalkCookieChangeSubscription.drop hd s).storeSubscription = s.storeSubscription ∧
    (XWalkCookieChangeSubscription.drop hd s).relayDestroyed = s.relayDestroyed := by
  simp only [XWalkCookieChangeSubscription.drop, SubscriptionWrapper.OnUnsubscribe,
    SubscriptionWrapper.delete, NestedSubscription.release]
  split_ifs <;> simp_all

theorem release_client_preserves_relay (s : SystemState) :
    (NestedSubscription.release Ctx.client s).storeSubscription = s.storeSubscription ∧
    (NestedSubscription.release Ctx.client s).relayDestroyed = s.relayDestroyed := by
  unfold NestedSubscription.release
  split <;> simp

theorem relay_store_ctx_only (s : SystemState) (a : Action)
    (h : Action.ctx a = Ctx.client) :
    (step s a).storeSubscription = s.storeSubscription ∧
    (step s a).relayDestroyed = s.relayDestroyed := by
  cases a with
  | runStoreTask => simp [Action.ctx] at h
  | storeEmit cookie cause => simp [Action.ctx] at h
  | runClientTask => exact runClientTask_preserves_relay s
  | dropHandle hd => exact drop_preserves_relay hd s
  | releaseRelayRef ctx =>
    have hc : ctx = Ctx.client := h
    subst hc
    exact release_client_preserves_relay s

/-- Witness for C9: releasing the last relay reference from the client context
leaves the real registration and the relay destruction flag untouched. -/
theorem relay_store_ctx_only_witness :
    (step activeState (Action.releaseRelayRef Ctx.client)).storeSubscription
        = activeState.storeSubscription ∧
    (step activeState (Action.releaseRelayRef Ctx.client)).relayDestroyed
        = activeState.relayDestroyed :=
  relay_store_ctx_only activeState (Action.releaseRelayRef Ctx.client) (by decide)

theorem step_empty_registry (s : SystemState) (a : Action) (h : s.callbackList = []) :
    (step s a).callbackList = [] ∧ (step s a).clientLog = s.clientLog := by
  cases a with
  | runStoreTask =>
    show (runStoreTask s).callbackList = [] ∧ (runStoreTask s).clientLog = s.clientLog
    unfold runStoreTask
    cases hq : s.storeQueue with
    | nil => exact ⟨h, rfl⟩
    | cons t rest => cases t <;> exact ⟨h, rfl⟩
  | runClientTask =>
    show (runClientTask s).callbackList = [] ∧ (runClientTask s).clientLog = s.clientLog
    unfold runClientTask
    cases hq : s.clientQueue with
    | nil => exact ⟨h, rfl⟩
    | cons t rest =>
      cases t with
      | wrapperOnChanged cookie cause =>
        by_cases hha : s.hubAlive = true <;> simp [hha, SubscriptionWrapper.OnChanged, h]
      | nestedSubscribe mode url name => exact ⟨h, rfl⟩
      | deleteRelay => exact ⟨h, rfl⟩
  | storeEmit cookie cause =>
    show (storeEmit s cookie cause).callbackList = [] ∧
      (storeEmit s cookie cause).clientLog = s.clientLog
    unfold storeEmit NestedSubscription.OnChanged
    split <;> exact ⟨h, rfl⟩
  | dropHandle hd =>
    show (XWalkCookieChangeSubscription.drop hd s).callbackList = [] ∧
      (XWalkCookieChangeSubscription.drop hd s).clientLog = s.clientLog
    simp only [XWalkCookieChangeSubscription.drop, SubscriptionWrapper.OnUnsubscribe,
      SubscriptionWrapper.delete, NestedSubscription.release]
    split_ifs <;> simp_all
  | releaseRelayRef ctx =>
    show (NestedSubscription.release ctx s).callbackList = [] ∧
      (NestedSubscription.release ctx s).clientLog = s.clientLog
    cases ctx <;> simp only [NestedSubscription.release] <;> split_ifs <;> simp_all

theorem run_empty_registry (s : SystemState) (as : List Action) (h : s.callbackList = []) :
    (run s as).clientLog = s.clientLog := by
  induction as generalizing s with
  | nil => rfl
  | cons a as ih =>
    have hs := step_empty_registry s a h
    show (run (step s a) as).clientLog = s.clientLog
    rw [ih (step s a) hs.1, hs.2]

/-- C2: if the SubscriptionHandle is dropped while it holds the only
registration, then no registered callback is ever invoked afterwards, under
every subsequent schedule of store events and task executions: destroying the
handle removes the registration from callback_list_, after which
callback_list_.Notify has nothing to call, so the log of client callback
invocations never grows. -/
theorem no_callback_after_handle_dropped (s : SystemState)
    (hd : XWalkCookieChangeSubscription) (as : List Action)
    (hreg : s.callbackList = [hd.subscriptionId]) :
    (run (XWalkCookieChangeSubscription.drop hd s) as).clientLog = s.clientLog := by
  have h1 : (XWalkCookieChangeSubscription.drop hd s).callbackList = [] := by
    simp only [XWalkCookieChangeSubscription.drop, SubscriptionWrapper.OnUnsubscribe,
      SubscriptionWrapper.delete, NestedSubscription.release]
    split_ifs <;> simp_all
  have h2 : (XWalkCookieChangeSubscription.drop hd s).clientLog = s.clientLog := by
    simp only [XWalkCookieChangeSubscription.drop, SubscriptionWrapper.OnUnsubscribe,
      SubscriptionWrapper.delete, NestedSubscription.release]
    split_ifs <;> simp_all
  rw [run_empty_registry _ as h1, h2]

/-- Witness for C2: drop the handle right after AddCallbackForCookie, then let
the store run the Subscribe task, emit a matching event, and run the client
task: the client callback log stays empty. -/
theorem no_callback_after_handle_dropped_witness :
    (run (XWalkCookieChangeSubscription.drop postSubscribeHandle postSubscribeState)
        [Action.runStoreTask, Action.storeEmit exCookie CookieChangeCause.inserted,
          Action.runClientTask]).clientLog = postSubscribeState.clientLog :=
  no_callback_after_handle_dropped postSubscribeState postSubscribeHandle
    [Action.runStoreTask, Action.storeEmit exCookie CookieChangeCause.inserted,
      Action.runClientTask] (by decide)

theorem step_no_removal_hub (s : SystemState) (a : Action) (h : s.removalCallback = false) :
    (step s a).removalCallback = false ∧ (step s a).hubAlive = s.hubAlive := by
  cases a with
  | runStoreTask =>
    show (runStoreTask s).removalCallback = false ∧ (runStoreTask s).hubAlive = s.hubAlive
    unfold runStoreTask
    cases hq : s.storeQueue with
    | nil => exact ⟨h, rfl⟩
    | cons t rest => cases t <;> exact ⟨h, rfl⟩
  | runClientTask =>
    show (runClientTask s).removalCallback = false ∧ (runClientTask s).hubAlive = s.hubAlive
    unfold runClientTask
    cases hq : s.clientQueue with
    | nil => exact ⟨h, rfl⟩
    | cons t rest =>
      cases t with
      | wrapperOnChanged cookie cause =>
        by_cases hha : s.hubAlive = true <;> simp [hha, SubscriptionWrapper.OnChanged, h]
      | nestedSubscribe mode url name => exact ⟨h, rfl⟩
      | deleteRelay => exact ⟨h, rfl⟩
  | storeEmit cookie cause =>
    show (storeEmit s cookie cause).removalCallback = false ∧
      (storeEmit s cookie cause).hubAlive = s.hubAlive
    unfold storeEmit NestedSubscription.OnChanged
    split <;> exact ⟨h, rfl⟩
  | dropHandle hd =>
    show (XWalkCookieChangeSubscription.drop hd s).removalCallback = false ∧
      (XWalkCookieChangeSubscription.drop hd s).hubAlive = s.hubAlive
    simp only [XWalkCookieChangeSubscription.drop, SubscriptionWrapper.OnUnsubscribe,
      SubscriptionWrapper.delete, NestedSubscription.release]
    split_ifs <;> simp_all
  | releaseRelayRef ctx =>
    show (NestedSubscription.release ctx s).removalCallback = false ∧
      (NestedSubscription.release ctx s).hubAlive = s.hubAlive
    cases ctx <;> simp only [NestedSubscription.release] <;> split_ifs <;> simp_all

theorem run_no_removal_hub (s : SystemState) (as : List Action)
    (h1 : s.removalCallback = false) (h2 : s.hubAlive = true) :
    (run s as).hubAlive = true := by
  induction as generalizing s with
  | nil => exact h2
  | cons a as ih =>
    have hs := step_no_removal_hub s a h1
    show (run (step s a) as).hubAlive = true
    exact ih (step s a) hs.1 (hs.2.trans h2)

/-- C1, evaluated at the failing input (refutation of the stated teardown): a
subscription is created by AddCallbackForCookie and its handle is then
dropped.  The callback registry does empty, but the hub survives, and it
survives under every subsequent schedule: the constructor never calls
set_removal_callback on callback_list_, so the registry emptying never invokes
OnUnsubscribe and the SubscriptionWrapper is never deleted, contradicting the
claimed self-destruction path (and the source comment that the wrapper
destroys itself when the consumer unsubscribes). -/
theorem dropping_handle_never_deletes_hub :
    ∃ p, XWalkCookieChangeDispatcherWrapper.AddCallbackForCookie exUrl "session_id" 7 = some p ∧
      (XWalkCookieChangeSubscription.drop p.2 p.1).callbackList = [] ∧
      (XWalkCookieChangeSubscription.drop p.2 p.1).hubAlive = true ∧
      ∀ as : List Action,
        (run (XWalkCookieChangeSubscription.drop p.2 p.1) as).hubAlive = true := by
  refine ⟨(postSubscribeState, postSubscribeHandle), by decide, by decide, by decide, ?_⟩
  intro as
  exact run_no_removal_hub _ as (by decide) (by decide)

end Xwalk
